import Mathlib

/-!
Shallow embedding of the core of the `optimalhouse` repository:
the proforma calculation engine (`src/utils/calculations.ts`) and the
seeded property-data simulator (`src/utils/defaults.ts`).

Modelling conventions:
* TypeScript `number` values are modelled as exact rationals (`ℚ`);
  the claims under study are algebraic identities of the formulas,
  stated in exact arithmetic.
* `Math.pow` is modelled at the nonnegative integer exponents the
  program applies it to (loan terms in months); at a non-integral or
  negative exponent the model returns 0.
* `Math.floor` is `Rat.floor`; JS `Math.round` rounds half toward
  positive infinity, i.e. `⌊x + 1/2⌋`.
* `Math.sin` (a transcendental double-precision function) is an
  uninterpreted parameter `sinm : ℚ → ℚ` threaded through the
  simulator; every theorem about the simulator quantifies over it,
  so each holds in particular for the actual sine table.
* `String.charCodeAt` sums are modelled by summing `Char.toNat`,
  which agrees with UTF-16 code units on the Basic Multilingual Plane.
-/

namespace OptimalHouse

/-- Scenario tag: `'rental' | 'airbnb' | 'owner'` (src/unnamed/part_007). -/
inductive Scenario where
  | rental
  | airbnb
  | owner
deriving DecidableEq, Repr

/-- Property record: address, beds, baths, year (src/unnamed/part_007). -/
structure Property where
  address : String
  beds : ℚ
  baths : ℚ
  year : ℚ
deriving DecidableEq, Repr

/-- Assumptions record, the 18 numeric inputs (src/unnamed/part_007). -/
structure Assumptions where
  purchasePrice : ℚ
  downPaymentPercent : ℚ
  interestRate : ℚ
  loanTerm : ℚ
  closingCostsPercent : ℚ
  landValuePercent : ℚ
  monthlyRent : ℚ
  vacancyPercent : ℚ
  avgNightlyRate : ℚ
  occupancyRate : ℚ
  airbnbFeePercent : ℚ
  equivalentRent : ℚ
  propertyTaxPercent : ℚ
  homeInsurancePercent : ℚ
  monthlyHOA : ℚ
  maintenancePercent : ℚ
  utilitiesMonthly : ℚ
  mgmtFeePercent : ℚ
deriving DecidableEq, Repr

/-- PersonalInfo record (src/unnamed/part_007). -/
structure PersonalInfo where
  federalTaxRate : ℚ
  stateTaxRate : ℚ
  opportunityCostRate : ℚ
deriving DecidableEq, Repr

/-- Shared base of every proforma (src/unnamed/part_007). -/
structure BaseProforma where
  scenario : Scenario
  totalCashNeeded : ℚ
  annualPropertyTax : ℚ
  annualHomeInsurance : ℚ
  annualHOA : ℚ
  annualUtilities : ℚ
  opportunityCost : ℚ
  year1Principal : ℚ
deriving DecidableEq, Repr

/-- Rental/Airbnb proforma variant (src/unnamed/part_007). -/
structure RentalProforma extends BaseProforma where
  grossPotentialIncome : ℚ
  vacancyLoss : ℚ
  effectiveGrossIncome : ℚ
  totalOpEx : ℚ
  maintenance : ℚ
  managementFee : ℚ
  platformFee : ℚ
  annualMortgagePayment : ℚ
  totalExpenses : ℚ
  cashFlowBeforeTax : ℚ
  year1Interest : ℚ
  annualDepreciation : ℚ
  netTaxableIncome : ℚ
  taxBenefit : ℚ
  cashFlowAfterTax : ℚ
  capRate : ℚ
  cashOnCashReturn : ℚ
  cashFlowPerMonth : ℚ
deriving DecidableEq, Repr

/-- Owner-occupied proforma variant (src/unnamed/part_007). -/
structure OwnerProforma extends BaseProforma where
  grossAvoidedRent : ℚ
  totalAnnualCost : ℚ
  totalExpenses : ℚ
  annualPITI : ℚ
  year1Interest : ℚ
  deductiblePropTax : ℚ
  totalDeductions : ℚ
  taxBenefit : ℚ
  netAnnualCost : ℚ
  netBenefit : ℚ
  monthlyTotalCost : ℚ
  netMonthlyCost : ℚ
deriving DecidableEq, Repr

/-- Proforma result: the tagged union `RentalProforma | OwnerProforma`. -/
inductive Proforma where
  | rental (p : RentalProforma)
  | owner (p : OwnerProforma)
deriving DecidableEq, Repr

/-- Shared base record of either proforma variant. -/
def Proforma.toBase : Proforma → BaseProforma
  | .rental p => p.toBaseProforma
  | .owner p => p.toBaseProforma

/-- The `year1Interest` field, present in both proforma variants. -/
def Proforma.year1InterestOf : Proforma → ℚ
  | .rental p => p.year1Interest
  | .owner p => p.year1Interest

/-- JS `Math.floor` on the rational model. -/
def jsFloor (x : ℚ) : ℚ := (⌊x⌋ : ℤ)

/-- JS `Math.round` (rounds half toward positive infinity). -/
def jsRound (x : ℚ) : ℚ := (⌊x + 1/2⌋ : ℤ)

/-- JS `Math.pow`, modelled at the nonnegative integer exponents the
program uses; 0 elsewhere. -/
def mpow (b e : ℚ) : ℚ := if 0 ≤ e ∧ e.den = 1 then b ^ e.num.toNat else 0

/-- `calculateMonthlyPI` from src/src/utils/calculations.ts, verbatim:
guard on nonpositive inputs, then the annuity formula, with the
(dead) `monthlyRate === 0` branch kept in place. -/
def calculateMonthlyPI (principal annualRate loanTermYears : ℚ) : ℚ :=
  if principal ≤ 0 ∨ annualRate ≤ 0 ∨ loanTermYears ≤ 0 then 0
  else
    let monthlyRate := annualRate / 12
    let numberOfPayments := loanTermYears * 12
    if monthlyRate = 0 then principal / numberOfPayments
    else
      principal * (monthlyRate * mpow (1 + monthlyRate) numberOfPayments) /
        (mpow (1 + monthlyRate) numberOfPayments - 1)

/-- `calculateProforma` from src/src/utils/calculations.ts.  The three
scenario values make the TS `if`-chain total, so the unreachable
fallback `return proforma as Proforma` has no counterpart. -/
def calculateProforma (assumptions : Assumptions) (personal : PersonalInfo)
    (scenario : Scenario) : Proforma :=
  let purchasePrice := assumptions.purchasePrice
  let downPaymentPercent := assumptions.downPaymentPercent
  let interestRate := assumptions.interestRate
  let loanTerm := assumptions.loanTerm
  let closingCostsPercent := assumptions.closingCostsPercent
  let landValuePercent := assumptions.landValuePercent
  let monthlyRent := assumptions.monthlyRent
  let avgNightlyRate := assumptions.avgNightlyRate
  let occupancyRate := assumptions.occupancyRate
  let propertyTaxPercent := assumptions.propertyTaxPercent
  let homeInsurancePercent := assumptions.homeInsurancePercent
  let monthlyHOA := assumptions.monthlyHOA
  let maintenancePercent := assumptions.maintenancePercent
  let vacancyPercent := assumptions.vacancyPercent
  let utilitiesMonthly := assumptions.utilitiesMonthly
  let mgmtFeePercent := assumptions.mgmtFeePercent
  let airbnbFeePercent := assumptions.airbnbFeePercent
  let equivalentRent := assumptions.equivalentRent
  let federalTaxRate := personal.federalTaxRate
  let stateTaxRate := personal.stateTaxRate
  let opportunityCostRate := personal.opportunityCostRate
  let downPaymentAmount := purchasePrice * downPaymentPercent
  let loanAmount := purchasePrice - downPaymentAmount
  let totalCashNeeded := downPaymentAmount + purchasePrice * closingCostsPercent
  let monthlyPI := calculateMonthlyPI loanAmount interestRate loanTerm
  let annualMortgagePayment := monthlyPI * 12
  let year1Interest := loanAmount * interestRate
  let year1Principal := annualMortgagePayment - year1Interest
  let annualPropertyTax := purchasePrice * propertyTaxPercent
  let annualHomeInsurance := purchasePrice * homeInsurancePercent
  let annualHOA := monthlyHOA * 12
  let annualUtilities := utilitiesMonthly * 12
  let depreciationBasis := purchasePrice * (1 - landValuePercent)
  let annualDepreciation := depreciationBasis / 27.5
  let combinedTaxRate := federalTaxRate + stateTaxRate
  let opportunityCost := totalCashNeeded * opportunityCostRate
  let proforma : BaseProforma :=
    { scenario := scenario
      totalCashNeeded := totalCashNeeded
      annualPropertyTax := annualPropertyTax
      annualHomeInsurance := annualHomeInsurance
      annualHOA := annualHOA
      annualUtilities := annualUtilities
      opportunityCost := opportunityCost
      year1Principal := year1Principal }
  let rentalAirbnb : Scenario → Proforma := fun s =>
    let grossPotentialIncome :=
      if s = Scenario.rental then monthlyRent * 12
      else avgNightlyRate * 365 * occupancyRate
    let vacancyLoss :=
      if s = Scenario.rental then grossPotentialIncome * vacancyPercent
      else 0
    let effectiveGrossIncome := grossPotentialIncome - vacancyLoss
    let maintenance := effectiveGrossIncome * maintenancePercent
    let managementFee := effectiveGrossIncome * mgmtFeePercent
    let platformFee :=
      if s = Scenario.airbnb then effectiveGrossIncome * airbnbFeePercent else 0
    let totalOpEx :=
      annualPropertyTax + annualHomeInsurance + annualHOA + annualUtilities +
        maintenance + managementFee + platformFee
    let totalExpenses := totalOpEx + annualMortgagePayment + opportunityCost
    let netOperatingIncome := effectiveGrossIncome - totalOpEx
    let cashFlowBeforeTax := netOperatingIncome - annualMortgagePayment
    let deductibleExpenses := totalOpEx + year1Interest + annualDepreciation
    let netTaxableIncome := effectiveGrossIncome - deductibleExpenses
    let taxSavings :=
      if netTaxableIncome < 0 then |netTaxableIncome| * combinedTaxRate else 0
    let taxesOwed :=
      if 0 < netTaxableIncome then netTaxableIncome * combinedTaxRate else 0
    let taxBenefit := taxSavings - taxesOwed
    let cashFlowAfterTax := cashFlowBeforeTax + taxBenefit
    let capRate := netOperatingIncome / purchasePrice
    let cashOnCashReturn := cashFlowAfterTax / totalCashNeeded
    let cashFlowPerMonth := cashFlowAfterTax / 12
    Proforma.rental
      { toBaseProforma := { proforma with scenario := s }
        grossPotentialIncome := grossPotentialIncome
        vacancyLoss := vacancyLoss
        effectiveGrossIncome := effectiveGrossIncome
        totalOpEx := totalOpEx
        maintenance := maintenance
        managementFee := managementFee
        platformFee := platformFee
        annualMortgagePayment := annualMortgagePayment
        totalExpenses := totalExpenses
        cashFlowBeforeTax := cashFlowBeforeTax
        year1Interest := year1Interest
        annualDepreciation := annualDepreciation
        netTaxableIncome := netTaxableIncome
        taxBenefit := taxBenefit
        cashFlowAfterTax := cashFlowAfterTax
        capRate := capRate
        cashOnCashReturn := cashOnCashReturn
        cashFlowPerMonth := cashFlowPerMonth }
  match scenario with
  | Scenario.rental => rentalAirbnb Scenario.rental
  | Scenario.airbnb => rentalAirbnb Scenario.airbnb
  | Scenario.owner =>
    let grossAvoidedRent := equivalentRent * 12
    let annualPITI := annualMortgagePayment + annualPropertyTax + annualHomeInsurance
    let totalAnnualCost := annualPITI + annualHOA + annualUtilities
    let totalExpenses := totalAnnualCost + opportunityCost
    let deductiblePropTax := min annualPropertyTax 10000
    let deductibleInterest := year1Interest
    let totalDeductions := deductiblePropTax + deductibleInterest
    let taxSavings := totalDeductions * combinedTaxRate
    let netAnnualCost := totalAnnualCost - taxSavings
    let netBenefit := grossAvoidedRent - netAnnualCost
    let monthlyTotalCost := totalAnnualCost / 12
    let netMonthlyCost := netAnnualCost / 12
    Proforma.owner
      { toBaseProforma := { proforma with scenario := Scenario.owner }
        grossAvoidedRent := grossAvoidedRent
        totalAnnualCost := totalAnnualCost
        totalExpenses := totalExpenses
        annualPITI := annualPITI
        year1Interest := year1Interest
        deductiblePropTax := deductiblePropTax
        totalDeductions := totalDeductions
        taxBenefit := taxSavings
        netAnnualCost := netAnnualCost
        netBenefit := netBenefit
        monthlyTotalCost := monthlyTotalCost
        netMonthlyCost := netMonthlyCost }

/-- Default assumptions (src/unnamed/part_006). -/
def defaultAssumptions : Assumptions :=
  { purchasePrice := 425000
    downPaymentPercent := 0.20
    interestRate := 0.0675
    loanTerm := 30
    closingCostsPercent := 0.03
    landValuePercent := 0.20
    monthlyRent := 2400
    vacancyPercent := 0.05
    avgNightlyRate := 185
    occupancyRate := 0.68
    airbnbFeePercent := 0.03
    equivalentRent := 2650
    propertyTaxPercent := 0.0115
    homeInsurancePercent := 0.0038
    monthlyHOA := 125
    maintenancePercent := 0.08
    utilitiesMonthly := 185
    mgmtFeePercent := 0.10 }

/-- Default personal info (src/unnamed/part_006). -/
def defaultPersonal : PersonalInfo :=
  { federalTaxRate := 0.24
    stateTaxRate := 0.06
    opportunityCostRate := 0.08 }

/-- `seededRandom` from src/unnamed/part_006: fractional part of
`sin(seed) * 10000` mapped linearly into `[min, max)`.  `sinm` is the
uninterpreted model of `Math.sin`. -/
def seededRandom (sinm : ℚ → ℚ) (seed min max : ℚ) : ℚ :=
  let x := sinm seed * 10000
  let random := x - jsFloor x
  min + random * (max - min)

/-- `generateSeed` from src/unnamed/part_006: sum of the address
character codes plus weighted beds, baths and year. -/
def generateSeed (property : Property) : ℚ :=
  let addressHash : ℚ :=
    property.address.data.foldl (fun acc char => acc + (char.toNat : ℚ)) 0
  addressHash + property.beds * 100 + property.baths * 50 + property.year

/-- `calculateRealisticPrice` from src/unnamed/part_006. -/
def calculateRealisticPrice (sinm : ℚ → ℚ) (property : Property) (seed : ℚ) : ℚ :=
  let basePricePerBed := seededRandom sinm (seed + 1) 80000 120000
  let basePricePerBath := seededRandom sinm (seed + 2) 35000 55000
  let propertyAge := 2024 - property.year
  let ageFactor :=
    if propertyAge < 5 then seededRandom sinm (seed + 3) 1.15 1.25
    else if propertyAge < 15 then seededRandom sinm (seed + 4) 1.05 1.15
    else if propertyAge < 30 then seededRandom sinm (seed + 5) 0.95 1.05
    else if propertyAge < 50 then seededRandom sinm (seed + 6) 0.80 0.95
    else seededRandom sinm (seed + 7) 0.70 0.90
  let basePrice := basePricePerBed * property.beds + basePricePerBath * property.baths
  let marketMultiplier := seededRandom sinm (seed + 8) 0.85 1.35
  let finalPrice := basePrice * ageFactor * marketMultiplier
  jsRound (finalPrice / 5000) * 5000

/-- `calculateRealisticRent` from src/unnamed/part_006. -/
def calculateRealisticRent (sinm : ℚ → ℚ) (purchasePrice : ℚ) (property : Property)
    (seed : ℚ) : ℚ :=
  let rentRatioBase := seededRandom sinm (seed + 10) 0.0045 0.0075
  let sizeAdjustment :=
    if 4 ≤ property.beds then seededRandom sinm (seed + 11) 0.90 0.95
    else if property.beds ≤ 2 then seededRandom sinm (seed + 12) 1.05 1.15
    else 1.0
  let baseRent := purchasePrice * rentRatioBase * sizeAdjustment
  jsRound (baseRent / 50) * 50

/-- `calculateAirbnbRate` from src/unnamed/part_006. -/
def calculateAirbnbRate (sinm : ℚ → ℚ) (monthlyRent : ℚ) (property : Property)
    (seed : ℚ) : ℚ :=
  let dailyRentEquivalent := monthlyRent / 30
  let airbnbMultiplier := seededRandom sinm (seed + 20) 2.3 3.2
  let bedroomBonus :=
    if 3 ≤ property.beds then seededRandom sinm (seed + 21) 1.05 1.15 else 1.0
  let nightlyRate := dailyRentEquivalent * airbnbMultiplier * bedroomBonus
  jsRound (nightlyRate / 5) * 5

/-- `calculateOccupancyRate` from src/unnamed/part_006. -/
def calculateOccupancyRate (sinm : ℚ → ℚ) (seed : ℚ) : ℚ :=
  seededRandom sinm (seed + 25) 0.55 0.75

/-- `calculatePropertyTax` from src/unnamed/part_006. -/
def calculatePropertyTax (sinm : ℚ → ℚ) (seed : ℚ) : ℚ :=
  seededRandom sinm (seed + 30) 0.008 0.015

/-- `calculateHomeInsurance` from src/unnamed/part_006. -/
def calculateHomeInsurance (sinm : ℚ → ℚ) (purchasePrice : ℚ) (seed : ℚ) : ℚ :=
  let baseRate := seededRandom sinm (seed + 35) 0.002 0.006
  let priceAdjustment :=
    if 600000 < purchasePrice then seededRandom sinm (seed + 36) 0.85 0.95
    else if purchasePrice < 250000 then seededRandom sinm (seed + 37) 1.05 1.20
    else 1.0
  baseRate * priceAdjustment

/-- `calculateHOA` from src/unnamed/part_006. -/
def calculateHOA (sinm : ℚ → ℚ) (property : Property) (seed : ℚ) : ℚ :=
  let hasHOA := 0.4 < seededRandom sinm (seed + 40) 0 1
  if ¬ hasHOA then 0
  else
    let propertyAge := 2024 - property.year
    let hoaRange : ℚ × ℚ :=
      if propertyAge < 10 then (150, 400)
      else if propertyAge < 20 then (100, 300)
      else (50, 200)
    let monthlyHOA := seededRandom sinm (seed + 41) hoaRange.1 hoaRange.2
    jsRound (monthlyHOA / 25) * 25

/-- `calculateUtilities` from src/unnamed/part_006. -/
def calculateUtilities (sinm : ℚ → ℚ) (property : Property) (seed : ℚ) : ℚ :=
  let baseUtilities := seededRandom sinm (seed + 45) 100 150
  let bedroomCost := property.beds * seededRandom sinm (seed + 46) 25 40
  let bathroomCost := property.baths * seededRandom sinm (seed + 47) 15 25
  let totalUtilities := baseUtilities + bedroomCost + bathroomCost
  jsRound (totalUtilities / 10) * 10

/-- `calculateInterestRate` from src/unnamed/part_006. -/
def calculateInterestRate (sinm : ℚ → ℚ) (seed : ℚ) : ℚ :=
  let rate := seededRandom sinm (seed + 50) 0.0625 0.0750
  jsRound (rate / 0.00125) * 0.00125

/-- `calculateDownPayment` from src/unnamed/part_006 (the `property`
parameter is accepted but unused, as in the source). -/
def calculateDownPayment (sinm : ℚ → ℚ) (_property : Property) (seed : ℚ) : ℚ :=
  let downPayment := seededRandom sinm (seed + 55) 0.15 0.25
  jsRound (downPayment / 0.05) * 0.05

/-- Body of `simulatePropertyData` after the line
`const seed = generateSeed(property)`, with the seed lifted to a
parameter.  The final record literal spreads `defaultAssumptions`, but
every one of its 18 fields is overridden, so the record is written
directly. -/
def simulateWithSeed (sinm : ℚ → ℚ) (property : Property) (seed : ℚ) : Assumptions :=
  let purchasePrice := calculateRealisticPrice sinm property seed
  let monthlyRent := calculateRealisticRent sinm purchasePrice property seed
  let equivalentRent := jsRound (monthlyRent * seededRandom sinm (seed + 60) 1.05 1.15 / 50) * 50
  let avgNightlyRate := calculateAirbnbRate sinm monthlyRent property seed
  let occupancyRate := calculateOccupancyRate sinm seed
  let propertyTaxPercent := calculatePropertyTax sinm seed
  let homeInsurancePercent := calculateHomeInsurance sinm purchasePrice seed
  let monthlyHOA := calculateHOA sinm property seed
  let utilitiesMonthly := calculateUtilities sinm property seed
  let interestRate := calculateInterestRate sinm seed
  let downPaymentPercent := calculateDownPayment sinm property seed
  let closingCostsPercent := seededRandom sinm (seed + 65) 0.025 0.040
  let landValuePercent := seededRandom sinm (seed + 70) 0.20 0.35
  let vacancyPercent := seededRandom sinm (seed + 75) 0.04 0.08
  let maintenancePercent := seededRandom sinm (seed + 80) 0.06 0.12
  let mgmtFeePercent := seededRandom sinm (seed + 85) 0.08 0.12
  let airbnbFeePercent := seededRandom sinm (seed + 90) 0.03 0.05
  { purchasePrice := purchasePrice
    downPaymentPercent := downPaymentPercent
    interestRate := interestRate
    loanTerm := 30
    closingCostsPercent := closingCostsPercent
    landValuePercent := landValuePercent
    monthlyRent := monthlyRent
    vacancyPercent := vacancyPercent
    avgNightlyRate := avgNightlyRate
    occupancyRate := occupancyRate
    airbnbFeePercent := airbnbFeePercent
    equivalentRent := equivalentRent
    propertyTaxPercent := propertyTaxPercent
    homeInsurancePercent := homeInsurancePercent
    monthlyHOA := monthlyHOA
    maintenancePercent := maintenancePercent
    utilitiesMonthly := utilitiesMonthly
    mgmtFeePercent := mgmtFeePercent }

/-- `simulatePropertyData` from src/unnamed/part_006. -/
def simulatePropertyData (sinm : ℚ → ℚ) (property : Property) : Assumptions :=
  simulateWithSeed sinm property (generateSeed property)

/-- Two Property records differing in exactly one of the four fields. -/
def oneFieldDiff (p q : Property) : Prop :=
  (p.address ≠ q.address ∧ p.beds = q.beds ∧ p.baths = q.baths ∧ p.year = q.year) ∨
  (p.address = q.address ∧ p.beds ≠ q.beds ∧ p.baths = q.baths ∧ p.year = q.year) ∨
  (p.address = q.address ∧ p.beds = q.beds ∧ p.baths ≠ q.baths ∧ p.year = q.year) ∨
  (p.address = q.address ∧ p.beds = q.beds ∧ p.baths = q.baths ∧ p.year ≠ q.year)

/-- Two properties whose addresses are permutations of each other, so
their character-code sums agree and `generateSeed` collides. -/
def propertyAB : Property := { address := "ab", beds := 3, baths := 2, year := 2000 }

/-- The same property with the address characters swapped. -/
def propertyBA : Property := { address := "ba", beds := 3, baths := 2, year := 2000 }

/-- The end-to-end sample input of the spec: `defaultAssumptions` with
the sixteen fields fixed by spec section 8 overridden. -/
def c8Assumptions : Assumptions :=
  { defaultAssumptions with
    purchasePrice := 500000
    downPaymentPercent := 0.20
    interestRate := 0.065
    loanTerm := 30
    monthlyRent := 3000
    vacancyPercent := 0.05
    propertyTaxPercent := 0.012
    homeInsurancePercent := 0.004
    monthlyHOA := 50
    utilitiesMonthly := 200
    maintenancePercent := 0.08
    mgmtFeePercent := 0.10
    landValuePercent := 0.20 }

/-- The personal profile of the spec's end-to-end sample. -/
def c8Personal : PersonalInfo :=
  { federalTaxRate := 0.24
    stateTaxRate := 0.05
    opportunityCostRate := 0.07 }

/-- `mpow` agrees with the natural power at natural exponents. -/
lemma mpow_num (b : ℚ) (n : ℕ) : mpow b (n : ℚ) = b ^ n := by
  have h1 : ((n : ℚ)).num.toNat = n := by
    rw [Rat.num_natCast]
    exact Int.toNat_natCast n
  unfold mpow
  rw [if_pos ⟨by positivity, Rat.den_natCast n⟩, h1]

/-- Arithmetic core of the engine's tax branch when the taxable income
is negative. -/
lemma taxSavings_sub_taxesOwed_of_neg (nti ctr : ℚ) (h : nti < 0) :
    (if nti < 0 then |nti| * ctr else 0) - (if 0 < nti then nti * ctr else 0) =
      |nti| * ctr := by
  rw [if_pos h, if_neg (not_lt.mpr (le_of_lt h)), sub_zero]

/-- Arithmetic core of the engine's tax branch when the taxable income
is positive. -/
lemma taxSavings_sub_taxesOwed_of_pos (nti ctr : ℚ) (h : 0 < nti) :
    (if nti < 0 then |nti| * ctr else 0) - (if 0 < nti then nti * ctr else 0) =
      -(nti * ctr) := by
  rw [if_neg (not_lt.mpr (le_of_lt h)), if_pos h, zero_sub]

/-- C1 (counterexample): the sensitivity claim is false as stated.
`propertyAB` and `propertyBA` differ in exactly one field (the
address), but the address enters the generator only through the sum of
its character codes, which is invariant under permutation, so every
output field coincides — for any model of `Math.sin`. -/
theorem simulatePropertyData_not_single_field_sensitive :
    ¬ ∀ (sinm : ℚ → ℚ) (p q : Property), oneFieldDiff p q →
        simulatePropertyData sinm p ≠ simulatePropertyData sinm q := by
  intro hclaim
  apply hclaim (fun _ => 0) propertyAB propertyBA
  · left
    refine ⟨?_, rfl, rfl, rfl⟩
    intro hcontr
    have : propertyAB.address.data = propertyBA.address.data := by rw [hcontr]
    simp [propertyAB, propertyBA] at this
  · have ha : ('a').toNat = 97 := rfl
    have hb : ('b').toNat = 98 := rfl
    have hs : generateSeed propertyAB = generateSeed propertyBA := by
      norm_num [generateSeed, propertyAB, propertyBA, ha, hb]
    show simulateWithSeed (fun _ => 0) propertyAB (generateSeed propertyAB) =
      simulateWithSeed (fun _ => 0) propertyBA (generateSeed propertyBA)
    rw [hs]
    exact rfl

/-- C1 (amended): `simulatePropertyData` reads the address only through
`generateSeed`; two properties that agree on beds, baths and year and
whose seeds collide produce identical assumption records, whatever
single-field change separates them. -/
theorem simulatePropertyData_seed_determined (sinm : ℚ → ℚ) (p q : Property)
    (hbeds : p.beds = q.beds) (hbaths : p.baths = q.baths)
    (hyear : p.year = q.year) (hseed : generateSeed p = generateSeed q) :
    simulatePropertyData sinm p = simulatePropertyData sinm q := by
  obtain ⟨a1, b1, ba1, y1⟩ := p
  obtain ⟨a2, b2, ba2, y2⟩ := q
  simp only [Property.beds, Property.baths, Property.year] at hbeds hbaths hyear
  subst hbeds
  subst hbaths
  subst hyear
  show simulateWithSeed sinm ⟨a1, b1, ba1, y1⟩ (generateSeed ⟨a1, b1, ba1, y1⟩) =
    simulateWithSeed sinm ⟨a2, b1, ba1, y1⟩ (generateSeed ⟨a2, b1, ba1, y1⟩)
  rw [hseed]
  exact rfl

/-- C1 (witness): the seed-collision theorem applied to the concrete
permuted-address pair. -/
theorem simulatePropertyData_seed_determined_witness :
    simulatePropertyData (fun _ => 0) propertyAB =
      simulatePropertyData (fun _ => 0) propertyBA := by
  apply simulatePropertyData_seed_determined (fun _ => 0) propertyAB propertyBA rfl rfl rfl
  have ha : ('a').toNat = 97 := rfl
  have hb : ('b').toNat = 98 := rfl
  norm_num [generateSeed, propertyAB, propertyBA, ha, hb]

/-- C2 (counterexample): at principal 100 and term 10 years, a zero
annual rate returns 0, not principal divided by the 120 monthly
payments, because the `annualRate <= 0` guard fires first. -/
theorem calculateMonthlyPI_zero_rate_not_P_div_n :
    calculateMonthlyPI 100 0 10 ≠ 100 / (10 * 12) := by
  rw [show calculateMonthlyPI 100 0 10 = 0 from rfl]
  norm_num

/-- C2 (amended): for every positive principal and positive term, a
zero annual rate yields a zero payment — the nonpositive-rate guard
returns 0 before the `monthlyRate === 0` branch can run. -/
theorem calculateMonthlyPI_zero_rate_returns_zero (P t : ℚ)
    (hP : 0 < P) (ht : 0 < t) : calculateMonthlyPI P 0 t = 0 := by
  unfold calculateMonthlyPI
  rw [if_pos (Or.inr (Or.inl le_rfl))]

/-- C2 (witness): the amended statement at principal 100, term 10. -/
theorem calculateMonthlyPI_zero_rate_returns_zero_witness :
    calculateMonthlyPI 100 0 10 = 0 :=
  calculateMonthlyPI_zero_rate_returns_zero 100 10 (by norm_num) (by norm_num)

/-- C3: in the rental and airbnb scenarios the proforma's `taxBenefit`
equals `|netTaxableIncome| * combinedTaxRate` when the net taxable
income is negative and `-(netTaxableIncome * combinedTaxRate)` when it
is positive, with `combinedTaxRate = federalTaxRate + stateTaxRate`. -/
theorem calculateProforma_taxBenefit_sign (a : Assumptions) (p : PersonalInfo)
    (s : Scenario) (hs : s = Scenario.rental ∨ s = Scenario.airbnb) :
    ∃ r, calculateProforma a p s = Proforma.rental r ∧
      (r.netTaxableIncome < 0 →
        r.taxBenefit = |r.netTaxableIncome| * (p.federalTaxRate + p.stateTaxRate)) ∧
      (0 < r.netTaxableIncome →
        r.taxBenefit = -(r.netTaxableIncome * (p.federalTaxRate + p.stateTaxRate))) := by
  rcases hs with rfl | rfl <;>
    exact ⟨_, rfl, fun h => taxSavings_sub_taxesOwed_of_neg _ _ h,
      fun h => taxSavings_sub_taxesOwed_of_pos _ _ h⟩

/-- C3 (witness): the tax-benefit sign theorem at the default inputs in
the rental scenario. -/
theorem calculateProforma_taxBenefit_sign_witness :
    ∃ r, calculateProforma defaultAssumptions defaultPersonal Scenario.rental =
        Proforma.rental r ∧
      (r.netTaxableIncome < 0 →
        r.taxBenefit = |r.netTaxableIncome| *
          (defaultPersonal.federalTaxRate + defaultPersonal.stateTaxRate)) ∧
      (0 < r.netTaxableIncome →
        r.taxBenefit = -(r.netTaxableIncome *
          (defaultPersonal.federalTaxRate + defaultPersonal.stateTaxRate))) :=
  calculateProforma_taxBenefit_sign defaultAssumptions defaultPersonal
    Scenario.rental (Or.inl rfl)

/-- C4: for `min < max`, `seededRandom` lands in the half-open interval
`[min, max)`, and repeated calls with identical arguments agree. -/
theorem seededRandom_mem_Ico_and_deterministic (sinm : ℚ → ℚ)
    (seed lo hi : ℚ) (h : lo < hi) :
    lo ≤ seededRandom sinm seed lo hi ∧ seededRandom sinm seed lo hi < hi ∧
      seededRandom sinm seed lo hi = seededRandom sinm seed lo hi := by
  have h0 : (0:ℚ) ≤ sinm seed * 10000 - ((⌊sinm seed * 10000⌋ : ℤ) : ℚ) := by
    have := Int.floor_le (sinm seed * 10000)
    linarith
  have h1 : sinm seed * 10000 - ((⌊sinm seed * 10000⌋ : ℤ) : ℚ) < 1 := by
    have := Int.lt_floor_add_one (sinm seed * 10000)
    linarith
  simp only [seededRandom, jsFloor]
  refine ⟨?_, ?_, trivial⟩
  · nlinarith
  · nlinarith

/-- C4 (witness): the range theorem at seed 1 on the interval `[0, 1)`
with the zero sine model. -/
theorem seededRandom_mem_Ico_and_deterministic_witness :
    (0:ℚ) ≤ seededRandom (fun _ => 0) 1 0 1 ∧
      seededRandom (fun _ => 0) 1 0 1 < 1 ∧
      seededRandom (fun _ => 0) 1 0 1 = seededRandom (fun _ => 0) 1 0 1 :=
  seededRandom_mem_Ico_and_deterministic (fun _ => 0) 1 0 1 (by norm_num)

/-- C5: the proforma's `vacancyLoss` is `grossPotentialIncome *
vacancyPercent` in the rental scenario and exactly 0 in the airbnb
scenario. -/
theorem calculateProforma_vacancyLoss_by_scenario (a : Assumptions)
    (p : PersonalInfo) :
    (∃ r, calculateProforma a p Scenario.rental = Proforma.rental r ∧
      r.vacancyLoss = r.grossPotentialIncome * a.vacancyPercent) ∧
    (∃ r, calculateProforma a p Scenario.airbnb = Proforma.rental r ∧
      r.vacancyLoss = 0) :=
  ⟨⟨_, rfl, rfl⟩, ⟨_, rfl, rfl⟩⟩

/-- C6: in the owner scenario the proforma's `deductiblePropTax` is
`min(annualPropertyTax, 10000)`, hence never exceeds 10000. -/
theorem calculateProforma_owner_deductiblePropTax_capped (a : Assumptions)
    (p : PersonalInfo) :
    ∃ o, calculateProforma a p Scenario.owner = Proforma.owner o ∧
      o.deductiblePropTax = min o.annualPropertyTax 10000 ∧
      o.deductiblePropTax ≤ 10000 :=
  ⟨_, rfl, rfl, min_le_right _ _⟩

/-- C7: in every scenario, `year1Interest = loanAmount * interestRate`
(flat first-year approximation) and `year1Principal =
annualMortgagePayment - year1Interest`, with `loanAmount =
purchasePrice * (1 - downPaymentPercent)` and `annualMortgagePayment =
12 * calculateMonthlyPI loanAmount interestRate loanTerm`. -/
theorem calculateProforma_year1_flat_approximation (a : Assumptions)
    (p : PersonalInfo) (s : Scenario) :
    Proforma.year1InterestOf (calculateProforma a p s) =
      a.purchasePrice * (1 - a.downPaymentPercent) * a.interestRate ∧
    (Proforma.toBase (calculateProforma a p s)).year1Principal =
      12 * calculateMonthlyPI (a.purchasePrice * (1 - a.downPaymentPercent))
          a.interestRate a.loanTerm -
        Proforma.year1InterestOf (calculateProforma a p s) := by
  have hla : a.purchasePrice - a.purchasePrice * a.downPaymentPercent =
      a.purchasePrice * (1 - a.downPaymentPercent) := by ring
  cases s <;>
    refine ⟨?_, ?_⟩ <;>
    simp only [calculateProforma, Proforma.year1InterestOf, Proforma.toBase] <;>
    rw [← hla] <;>
    ring

/-- C8: the spec's end-to-end rental sample: `loanAmount = 400000`, the
monthly payment is the annuity formula at `r = 0.065/12`, `n = 360` and
lies within one cent of 2528.27, `grossPotentialIncome = 36000`,
`vacancyLoss = 1800`, `effectiveGrossIncome = 34200`. -/
theorem calculateProforma_end_to_end_sample :
    c8Assumptions.purchasePrice -
        c8Assumptions.purchasePrice * c8Assumptions.downPaymentPercent = 400000 ∧
    calculateMonthlyPI 400000 0.065 30 =
      400000 * (0.065 / 12 * (1 + 0.065 / 12) ^ (360 : ℕ)) /
        ((1 + 0.065 / 12) ^ (360 : ℕ) - 1) ∧
    |calculateMonthlyPI 400000 0.065 30 - 2528.27| < 0.01 ∧
    ∃ r, calculateProforma c8Assumptions c8Personal Scenario.rental =
        Proforma.rental r ∧
      r.grossPotentialIncome = 36000 ∧ r.vacancyLoss = 1800 ∧
      r.effectiveGrossIncome = 34200 := by
  have hn : ((30 : ℚ) * 12) = ((360 : ℕ) : ℚ) := by norm_num
  refine ⟨by norm_num [c8Assumptions, defaultAssumptions], ?_, ?_, ?_⟩
  · unfold calculateMonthlyPI
    rw [if_neg (by norm_num)]
    simp only [hn, mpow_num]
    rw [if_neg (by norm_num)]
  · rw [abs_sub_lt_iff]
    unfold calculateMonthlyPI
    rw [if_neg (by norm_num)]
    simp only [hn, mpow_num]
    norm_num
  · refine ⟨_, rfl, ?_, ?_, ?_⟩ <;> norm_num [c8Assumptions, defaultAssumptions]

/-- C9: the seven shared base fields of the proforma are identical
across the three scenarios for fixed assumptions and personal info. -/
theorem calculateProforma_base_fields_scenario_invariant (a : Assumptions)
    (p : PersonalInfo) (s1 s2 : Scenario) :
    (Proforma.toBase (calculateProforma a p s1)).totalCashNeeded =
      (Proforma.toBase (calculateProforma a p s2)).totalCashNeeded ∧
    (Proforma.toBase (calculateProforma a p s1)).annualPropertyTax =
      (Proforma.toBase (calculateProforma a p s2)).annualPropertyTax ∧
    (Proforma.toBase (calculateProforma a p s1)).annualHomeInsurance =
      (Proforma.toBase (calculateProforma a p s2)).annualHomeInsurance ∧
    (Proforma.toBase (calculateProforma a p s1)).annualHOA =
      (Proforma.toBase (calculateProforma a p s2)).annualHOA ∧
    (Proforma.toBase (calculateProforma a p s1)).annualUtilities =
      (Proforma.toBase (calculateProforma a p s2)).annualUtilities ∧
    (Proforma.toBase (calculateProforma a p s1)).opportunityCost =
      (Proforma.toBase (calculateProforma a p s2)).opportunityCost ∧
    (Proforma.toBase (calculateProforma a p s1)).year1Principal =
      (Proforma.toBase (calculateProforma a p s2)).year1Principal := by
  cases s1 <;> cases s2 <;> exact ⟨rfl, rfl, rfl, rfl, rfl, rfl, rfl⟩

/-- C10: `calculateMonthlyPI` returns 0 when any input is nonpositive
and otherwise exactly the closed-form annuity value at `r =
annualRate/12`, `n = loanTermYears * 12`; whenever the guard is passed
the monthly rate is nonzero, so the `monthlyRate === 0` branch is
unreachable. -/
theorem calculateMonthlyPI_closed_form_guard (P r t : ℚ) :
    (calculateMonthlyPI P r t =
      if P ≤ 0 ∨ r ≤ 0 ∨ t ≤ 0 then 0
      else P * (r / 12 * mpow (1 + r / 12) (t * 12)) /
        (mpow (1 + r / 12) (t * 12) - 1)) ∧
    (¬ (P ≤ 0 ∨ r ≤ 0 ∨ t ≤ 0) → r / 12 ≠ 0) := by
  constructor
  · unfold calculateMonthlyPI
    split
    · rfl
    · rename_i h
      push_neg at h
      have hr : ¬ (r / 12 = 0) := div_ne_zero (ne_of_gt h.2.1) (by norm_num)
      simp only [if_neg hr]
  · intro h
    push_neg at h
    exact div_ne_zero (ne_of_gt h.2.1) (by norm_num)

/-- C10 (witness): the closed form at principal 1, rate 1, term 1, with
the guard condition discharged so the nonzero monthly rate is
explicit. -/
theorem calculateMonthlyPI_closed_form_guard_witness :
    (calculateMonthlyPI 1 1 1 =
      if (1:ℚ) ≤ 0 ∨ (1:ℚ) ≤ 0 ∨ (1:ℚ) ≤ 0 then 0
      else 1 * ((1:ℚ) / 12 * mpow (1 + 1 / 12) (1 * 12)) /
        (mpow (1 + 1 / 12) (1 * 12) - 1)) ∧
    (1:ℚ) / 12 ≠ 0 :=
  ⟨(calculateMonthlyPI_closed_form_guard 1 1 1).1,
    (calculateMonthlyPI_closed_form_guard 1 1 1).2 (by norm_num)⟩

end OptimalHouse
